import Mathlib

/-
Verification of the claim/lock coordination subsystem of the repository
(scripts/check_claims.py and scripts/safe_worktree_remove.py).

Modelling conventions (shallow embedding of the Python source):
- A Python dict key read with `d.get(k)` is modelled as an `Option` field;
  a key read with `d.get(k, default)` is modelled as `Option.getD`.
- Python truthiness on optional values: `None`, `0`, `""` and `[]` are
  falsy.  `truthyInt` / `truthyStr` make this explicit.
- Timestamps are modelled as integer numbers of seconds (`Int`); the
  parsing functions (`datetime.fromisoformat`, tz normalisation) are
  modelled as oracle functions `String -> Option Int` supplied by an
  environment record.  `timedelta(minutes=m)` is `m * 60` seconds and
  `timedelta(hours=h)` is `h * 3600` seconds.  The float division
  `total_seconds() / 3600` is modelled exactly over `ℚ`.
- Filesystem and subprocess observations (path existence, mtimes, git
  results, process lists) are oracle functions in environment records:
  the code under verification only consumes their results.
- Printing is ignored; functions return their result value together with
  the updated ledger state where the source mutates `data` and saves it.

The file is organised as definitions first (both source modules), then
the theorems about them.
-/

namespace CheckClaims

/-- Python truthiness of an optional integer: `None` and `0` are falsy. -/
def truthyInt : Option Int → Bool
  | none => false
  | some n => n != 0

/-- Python truthiness of an optional string: `None` and `""` are falsy. -/
def truthyStr : Option String → Bool
  | none => false
  | some s => s != ""

/-- A claim record (a dict in the source).  Field order:
cc_id, plan, feature, task, claimed_at, session_id, worktree_path, files.
Every field is optional because the source reads each one with `.get`. -/
structure Claim where
  cc_id : Option String
  plan : Option Int
  feature : Option String
  task : Option String
  claimed_at : Option String
  session_id : Option String
  worktree_path : Option String
  files : Option (List String)
deriving Repr, DecidableEq

/-- The empty claim dict `{}`. -/
def emptyClaim : Claim := ⟨none, none, none, none, none, none, none, none⟩

/-- A completed-history entry (a dict in the source).  Field order:
cc_id, plan, task, completed_at, commit, reason, auto_completed.
`cc_id` is always present at every construction site in the source. -/
structure CompletionRecord where
  cc_id : String
  plan : Option Int
  task : Option String
  completed_at : Option String
  commit : Option String
  reason : Option String
  auto_completed : Bool
deriving Repr, DecidableEq

/-- The parsed contents of `.claude/active-work.yaml`:
`{ claims: [...], completed: [...] }`. -/
structure Ledger where
  claims : List Claim
  completed : List CompletionRecord
deriving Repr, DecidableEq

/-- Python `l[-n:]`: the most recent (last) `n` elements of a list. -/
def lastN {α : Type} (n : Nat) (l : List α) : List α := l.drop (l.length - n)

/-- `check_scope_conflict` (scripts/check_claims.py, lines 305-343).
The "shared" feature never conflicts; otherwise a claim conflicts on an
exact plan match (both truthy) or an exact feature match (both truthy,
existing feature not "shared"). -/
def check_scope_conflict (new_plan : Option Int) (new_feature : Option String)
    (existing_claims : List Claim) : List Claim :=
  if new_feature = some "shared" then []
  else
    existing_claims.filter fun claim =>
      (truthyInt new_plan && truthyInt claim.plan && new_plan == claim.plan)
      || (truthyStr new_feature && truthyStr claim.feature
          && new_feature == claim.feature && claim.feature != some "shared")

/-- An existing claim whose plan is `0`, for the C2 counterexample. -/
def zeroPlanClaim : Claim := ⟨none, some 0, none, none, none, none, none, none⟩

/-- An existing claim on feature "f", for the C2 witness. -/
def featureFClaim : Claim := ⟨none, none, some "f", none, none, none, none, none⟩

/-- A session record (a dict in the source, see `create_session`).  Field
order: session_id, hostname, pid, started_at, last_activity, working_on. -/
structure Session where
  session_id : Option String
  hostname : Option String
  pid : Option Int
  started_at : Option String
  last_activity : Option String
  working_on : Option String
deriving Repr, DecidableEq

/-- Environment for session queries: the `load_session` results over the
`SESSIONS_DIR.glob("*.session")` iteration order (`none` for a file that
failed to load or loaded falsy), the `datetime.fromisoformat` oracle
(UTC seconds; `none` on `ValueError`), and the current UTC time in
seconds.  A missing `SESSIONS_DIR` is the empty list. -/
structure SessionEnv where
  sessions : List (Option Session)
  parseIso : String → Option Int
  now : Int

/-- `STALENESS_MINUTES` (scripts/check_claims.py, line 69). -/
def STALENESS_MINUTES : Int := 30

/-- The scan loop of `is_session_stale` over the loaded session files. -/
def is_session_stale_scan (parseIso : String → Option Int) (now : Int)
    (staleness_minutes : Int) (session_id : String) :
    List (Option Session) → Bool × Option Session
  | [] => (true, none)
  | none :: rest =>
    is_session_stale_scan parseIso now staleness_minutes session_id rest
  | some s :: rest =>
    if s.session_id = some session_id then
      match s.last_activity with
      | none => (true, some s)
      | some la =>
        if la = "" then (true, some s)
        else
          match parseIso la with
          | none => (true, some s)
          | some t => (decide (now - t > staleness_minutes * 60), some s)
    else is_session_stale_scan parseIso now staleness_minutes session_id rest

/-- `is_session_stale` (scripts/check_claims.py, lines 193-233). -/
def is_session_stale (env : SessionEnv) (session_id : String)
    (staleness_minutes : Int) : Bool × Option Session :=
  is_session_stale_scan env.parseIso env.now staleness_minutes session_id
    env.sessions

/-- A concrete fresh session record for the C6 witness. -/
def freshSession : Session :=
  ⟨some "sid-1", some "host", some 7, some "t0",
   some "2026-01-01T00:00:00+00:00", none⟩

/-- Concrete session environment for the C6 witness: one matching record
whose last activity parses to time 0, with the current time 600 seconds
later (inside the 30-minute threshold). -/
def sessionEnvWit : SessionEnv :=
  ⟨[some freshSession],
   fun s => if s = "2026-01-01T00:00:00+00:00" then some 0 else none,
   600⟩

/-- Filesystem observation environment for the staleness detector:
`Path(p).exists()`, the result of `get_worktree_last_modified` (most recent
detected modification, UTC seconds, `none` when undeterminable), and the
current UTC time in seconds. -/
structure FsEnv where
  pathExists : String → Bool
  lastModified : String → Option Int
  now : Int

/-- The tags of the human-readable reason strings returned by
`is_claim_stale` (the formatted text itself is not modelled). -/
inductive StaleReason
  | noWorktreePath
  | worktreeMissing
  | activityUnknown
  | inactive
  | active
deriving Repr, DecidableEq

/-- `is_claim_stale` (scripts/check_claims.py, lines 983-1021). -/
def is_claim_stale (env : FsEnv) (claim : Claim) (max_hours : Int) :
    Bool × StaleReason :=
  if !truthyStr claim.worktree_path then (true, StaleReason.noWorktreePath)
  else if !env.pathExists (claim.worktree_path.getD "") then
    (true, StaleReason.worktreeMissing)
  else
    match env.lastModified (claim.worktree_path.getD "") with
    | none => (true, StaleReason.activityUnknown)
    | some t =>
      let hours_since : ℚ := ((env.now - t : Int) : ℚ) / 3600
      if hours_since > (max_hours : ℚ) then (true, StaleReason.inactive)
      else (false, StaleReason.active)

/-- Concrete claim for the C7 witness: worktree at path "wt". -/
def wtClaim : Claim := ⟨some "b", none, none, none, none, none, some "wt", none⟩

/-- Filesystem environment in which "wt" exists and was last modified
9 hours (32400 seconds) before the current time. -/
def fsNineHours : FsEnv := ⟨fun _ => true, fun _ => some 0, 32400⟩

/-- Filesystem environment in which "wt" exists and was last modified
7 hours (25200 seconds) before the current time. -/
def fsSevenHours : FsEnv := ⟨fun _ => true, fun _ => some 0, 25200⟩

/-- The scan loop of `cleanup_stale_claims`. -/
def cleanup_stale_scan (env : FsEnv) (max_hours : Int) :
    List Claim → List String
  | [] => []
  | claim :: rest =>
    if (is_claim_stale env claim max_hours).1 then
      claim.cc_id.getD "unknown" :: cleanup_stale_scan env max_hours rest
    else cleanup_stale_scan env max_hours rest

/-- `cleanup_stale_claims` (scripts/check_claims.py, lines 1024-1056).  The
`dry_run` parameter is accepted as in the source; the source's
`if not dry_run:` branch contains only `pass`, so the function releases
nothing and mutates nothing either way — it only reports, which the pure
return type makes explicit. -/
def cleanup_stale_claims (env : FsEnv) (claims : List Claim)
    (max_hours : Int) (dry_run : Bool) : List String :=
  cleanup_stale_scan env max_hours claims

/-- The scan loop of `cleanup_orphaned_claims`. -/
def cleanup_orphaned_scan (pathExists : String → Bool) :
    List Claim → List String × List Claim
  | [] => ([], [])
  | claim :: rest =>
    let acc := cleanup_orphaned_scan pathExists rest
    if !truthyStr claim.worktree_path
        || !pathExists (claim.worktree_path.getD "") then
      (claim.cc_id.getD "unknown" :: acc.1, acc.2)
    else (acc.1, claim :: acc.2)

/-- `cleanup_orphaned_claims` (scripts/check_claims.py, lines 1083-1113):
a claim is orphaned when its worktree path is unset or the path no longer
exists; returns `(cleaned_cc_ids, remaining_claims)`.  As in the source,
`dry_run` does not affect the computed result. -/
def cleanup_orphaned_claims (pathExists : String → Bool)
    (claims : List Claim) (dry_run : Bool) : List String × List Claim :=
  cleanup_orphaned_scan pathExists claims

/-- Environment of the external observations consumed by `add_claim`:
`check_plan_dependencies`, `get_feature_names`, `get_session_id`,
`find_worktree_for_branch`, success of `save_claim_to_worktree`, and the
formatted current UTC timestamp. -/
structure ClaimEnv where
  depsOk : Int → Bool × List String
  validFeatures : List String
  currentSessionId : String
  findWorktree : String → Option String
  saveClaimOk : String → Bool
  nowStr : String

/-- `add_claim` (scripts/check_claims.py, lines 1220-1356).  In order:
the main-branch guard; the duplicate-`cc_id` guard (lines 1259-1265, an
unconditional failure, not bypassed by `force`); the plan-dependency check
(bypassed by `force`); the feature-name validation (not bypassed); the
scope-conflict check (bypassed by `force`); then the claim is built,
written to the worktree when one is found, appended to the ledger and
saved. -/
def add_claim (env : ClaimEnv) (data : Ledger) (cc_id : String)
    (plan : Option Int) (feature : Option String) (task : String)
    (files : List String) (worktree_path : Option String) (force : Bool)
    (session_id : Option String) : Bool × Ledger :=
  if cc_id = "main" then (false, data)
  else if data.claims.any (fun c => c.cc_id == some cc_id) then (false, data)
  else if truthyInt plan && !(env.depsOk (plan.getD 0)).1 && !force then
    (false, data)
  else if truthyStr feature
      && !(env.validFeatures.contains (feature.getD "")) then (false, data)
  else if !(check_scope_conflict plan feature data.claims).isEmpty
      && !force then (false, data)
  else
    let sid := session_id.getD env.currentSessionId
    let wt0 : Option String :=
      if truthyStr worktree_path then worktree_path else none
    let wt_path : Option String :=
      if truthyStr worktree_path then worktree_path else env.findWorktree cc_id
    let wtFinal : Option String :=
      if truthyStr wt_path && env.saveClaimOk (wt_path.getD "") then wt_path
      else wt0
    let new_claim : Claim :=
      ⟨some cc_id,
       if truthyInt plan then plan else none,
       if truthyStr feature then feature else none,
       some task, some env.nowStr, some sid, wtFinal,
       if files.isEmpty then none else some files⟩
    (true, ⟨data.claims ++ [new_claim], data.completed⟩)

/-- An existing claim held by instance "agent-a". -/
def dupClaim : Claim := ⟨some "agent-a", none, none, none, none, none, none, none⟩

/-- A ledger in which "agent-a" already holds a claim. -/
def dupLedger : Ledger := ⟨[dupClaim], []⟩

/-- A concrete environment for the C5 scenario in which every external
check would succeed. -/
def claimEnvCex : ClaimEnv :=
  ⟨fun _ => (true, []), [], "s1", fun _ => none, fun _ => false, "t0"⟩

/-- Environment of the external observations consumed by the explicit
`release_claim`: the session records (for the owner-staleness takeover
check), `get_session_id`, `validate_plan_for_completion`, and the
formatted current UTC timestamp. -/
structure ReleaseEnv where
  sessions : SessionEnv
  currentSessionId : String
  validatePlan : Int → Bool × List String
  nowStr : String

/-- The ownership verification of `release_claim` (scripts/check_claims.py,
lines 1424-1448): with a truthy claim `session_id` and no `force`, the
caller must own the claim or the owning session must be stale. -/
def release_ownership_ok (env : ReleaseEnv) (claim_to_remove : Claim)
    (force : Bool) (session_id : Option String) : Bool :=
  if truthyStr claim_to_remove.session_id && !force then
    if claim_to_remove.session_id.getD "" = session_id.getD env.currentSessionId
    then true
    else
      (is_session_stale env.sessions (claim_to_remove.session_id.getD "")
        STALENESS_MINUTES).1
  else true

/-- The TDD validation step of `release_claim` (lines 1450-1462): run only
when requested and the claim has a truthy plan; a failure is overridden by
`force`. -/
def release_validation_ok (env : ReleaseEnv) (claim_to_remove : Claim)
    (validate : Bool) (force : Bool) : Bool :=
  if validate && truthyInt claim_to_remove.plan then
    (env.validatePlan (claim_to_remove.plan.getD 0)).1 || force
  else true

/-- The completed-history entry built by `release_claim` (lines 1469-1476);
the `commit` key is only set when truthy, and no `reason` key is set on
explicit release. -/
def release_completion (env : ReleaseEnv) (claim_to_remove : Claim)
    (cc_id : String) (commit : Option String) : CompletionRecord :=
  ⟨cc_id, claim_to_remove.plan, claim_to_remove.task, some env.nowStr,
   if truthyStr commit then commit else none, none, false⟩

/-- `release_claim` (scripts/check_claims.py, lines 1396-1485): find the
first claim with the given `cc_id` (failure if none), verify ownership and
optionally validate, then remove the claim, append a completion record and
keep only the last 20 completions. -/
def release_claim (env : ReleaseEnv) (data : Ledger) (cc_id : String)
    (commit : Option String) (validate : Bool) (force : Bool)
    (session_id : Option String) : Bool × Ledger :=
  match data.claims.find? (fun c => c.cc_id == some cc_id) with
  | none => (false, data)
  | some claim_to_remove =>
    if !release_ownership_ok env claim_to_remove force session_id then
      (false, data)
    else if !release_validation_ok env claim_to_remove validate force then
      (false, data)
    else
      (true,
       ⟨data.claims.erase claim_to_remove,
        lastN 20 (data.completed ++
          [release_completion env claim_to_remove cc_id commit])⟩)

/-- The claims of `data` whose `cc_id` is a merged branch
(`cleanup_merged_claims` loop, matching arm). -/
def merged_cleaned (merged_branches : List String) (data : Ledger) :
    List Claim :=
  data.claims.filter fun c => merged_branches.contains (c.cc_id.getD "")

/-- The claims kept by `cleanup_merged_claims` (non-merged `cc_id`). -/
def merged_kept (merged_branches : List String) (data : Ledger) :
    List Claim :=
  data.claims.filter fun c => !merged_branches.contains (c.cc_id.getD "")

/-- The completion records appended by `cleanup_merged_claims`
(lines 503-511): reason "branch_merged", flagged auto-completed. -/
def merged_completions (merged_branches : List String) (nowStr : String)
    (data : Ledger) : List CompletionRecord :=
  (merged_cleaned merged_branches data).map fun c =>
    ⟨c.cc_id.getD "", c.plan, c.task, some nowStr, none,
     some "branch_merged", true⟩

/-- The worktree-removal suggestions collected by `cleanup_merged_claims`
(lines 514-517). -/
def merged_worktrees (merged_branches : List String) (data : Ledger) :
    List String :=
  ((merged_cleaned merged_branches data).filter
      (fun c => truthyStr c.worktree_path)).map
    fun c => c.worktree_path.getD ""

/-- `cleanup_merged_claims` (scripts/check_claims.py, lines 481-527):
with no merged branches nothing happens; otherwise claims on merged
branches move to the completed history (kept to the last 50 entries) and
their worktrees are suggested for removal.  When no claim matches, the
ledger is left untouched. -/
def cleanup_merged_claims (merged_branches : List String) (nowStr : String)
    (data : Ledger) : Nat × List String × Ledger :=
  if merged_branches.isEmpty then (0, [], data)
  else if 0 < (merged_cleaned merged_branches data).length then
    ((merged_cleaned merged_branches data).length,
     merged_worktrees merged_branches data,
     ⟨merged_kept merged_branches data,
      lastN 50 (data.completed ++
        merged_completions merged_branches nowStr data)⟩)
  else (0, merged_worktrees merged_branches data, data)

/-- The `--cleanup-orphaned` handler (scripts/check_claims.py, lines
1851-1876): when orphans were found and this is not a dry run, the ledger
keeps the remaining claims and each cleaned `cc_id` is appended to the
completed history with reason "auto_released_orphaned", kept to the last
50 entries. -/
def cleanup_orphaned_apply (pathExists : String → Bool) (nowStr : String)
    (data : Ledger) (dry_run : Bool) : Ledger :=
  if !(cleanup_orphaned_claims pathExists data.claims dry_run).1.isEmpty
      && !dry_run then
    ⟨(cleanup_orphaned_claims pathExists data.claims dry_run).2,
     lastN 50 (data.completed ++
       (cleanup_orphaned_claims pathExists data.claims dry_run).1.map
         fun id =>
           ⟨id, none, none, some nowStr, none, some "auto_released_orphaned",
            false⟩)⟩
  else data

/-- The completion records appended by the `--cleanup-stale` handler
(lines 1898-1907): each stale `cc_id` with the plan/task of the first
claim carrying that id (or of the empty dict), reason
"auto_released_stale". -/
def stale_completions (env : FsEnv) (nowStr : String) (data : Ledger)
    (stale_hours : Int) : List CompletionRecord :=
  (cleanup_stale_claims env data.claims stale_hours true).map fun id =>
    ⟨id,
     ((data.claims.find? (fun c => c.cc_id == some id)).getD emptyClaim).plan,
     ((data.claims.find? (fun c => c.cc_id == some id)).getD emptyClaim).task,
     some nowStr, none, some "auto_released_stale", false⟩

/-- The `--cleanup-stale` handler (scripts/check_claims.py, lines
1878-1912): stale ids are computed with `dry_run=True`; when some exist
and this is not a dry run, claims whose `cc_id` is among them are dropped
(a claim with no `cc_id` key is kept, since `None` is not among the string
ids) and the history gains one record per stale id, kept to the last 50. -/
def cleanup_stale_apply (env : FsEnv) (nowStr : String) (data : Ledger)
    (stale_hours : Int) (dry_run : Bool) : Ledger :=
  if !(cleanup_stale_claims env data.claims stale_hours true).isEmpty
      && !dry_run then
    ⟨data.claims.filter (fun c =>
        match c.cc_id with
        | none => true
        | some s =>
          !(cleanup_stale_claims env data.claims stale_hours true).contains s),
     lastN 50 (data.completed ++ stale_completions env nowStr data stale_hours)⟩
  else data

/-- A one-claim ledger for the C8 witness scenarios. -/
def oneClaimLedger : Ledger :=
  ⟨[⟨some "a", none, none, none, none, none, none, none⟩], []⟩

/-- A release environment for the C8 witness in which no session records
exist and validation would succeed. -/
def releaseEnvWit : ReleaseEnv :=
  ⟨⟨[], fun _ => none, 0⟩, "s1", fun _ => (true, []), "t1"⟩

/-- A filesystem oracle under which no path exists. -/
def noPathExists : String → Bool := fun _ => false

/-- A filesystem environment in which nothing exists (every claim is
stale and orphaned). -/
def fsNothing : FsEnv := ⟨noPathExists, fun _ => none, 0⟩

end CheckClaims

namespace SafeRemove

open CheckClaims

/-- The current CC identity (`get_current_cc_identity`,
scripts/safe_worktree_remove.py, lines 183-199): branch, is_main, cwd. -/
structure Identity where
  branch : String
  is_main : Bool
  cwd : String
deriving Repr, DecidableEq

/-- One process observed with its CWD inside the worktree
(`check_processes_using_worktree`). -/
structure ProcInfo where
  pid : Int
  name : String
  cwd : String
deriving Repr, DecidableEq

/-- Environment of the external observations consumed by
`should_block_removal` and `release_claim`:
the parsed claims file (`none` when missing or unparseable), path
normalisation (`Path(...).resolve()`), `get_worktree_branch`,
`is_branch_merged`, `has_uncommitted_changes`,
`check_session_marker_recent`, `check_processes_using_worktree`, and the
current UTC timestamp string. -/
structure RemoveEnv where
  ledger : Option Ledger
  resolve : String → String
  worktreeBranch : String → Option String
  branchMerged : String → Bool
  uncommitted : String → Bool × String
  markerRecent : String → Bool × Option Int
  processes : String → List ProcInfo
  nowStr : String

/-- The `info` component of the `should_block_removal` verdict: a claim
dict, a session-marker time, or a process list. -/
inductive RemovalInfo
  | claimInfo (c : Claim)
  | markerInfo (marker_time : Option Int)
  | processInfo (processes : List ProcInfo)
deriving Repr, DecidableEq

/-- The scan loop of `check_worktree_claimed` (lines 231-239): the first
claim with a truthy `worktree_path` resolving to the normalised target. -/
def check_worktree_claimed_scan (resolve : String → String)
    (normalized : String) : List Claim → Bool × Option Claim
  | [] => (false, none)
  | c :: rest =>
    match c.worktree_path with
    | none => check_worktree_claimed_scan resolve normalized rest
    | some wp =>
      if wp = "" then check_worktree_claimed_scan resolve normalized rest
      else if resolve wp = normalized then (true, some c)
      else check_worktree_claimed_scan resolve normalized rest

/-- `check_worktree_claimed` (scripts/safe_worktree_remove.py, lines
202-239).  A missing or unparseable claims file yields `(False, None)`. -/
def check_worktree_claimed (env : RemoveEnv) (worktree_path : String) :
    Bool × Option Claim :=
  match env.ledger with
  | none => (false, none)
  | some data =>
    check_worktree_claimed_scan env.resolve (env.resolve worktree_path)
      data.claims

/-- The ownership comparison of `should_block_removal` (lines 358-366):
the claim is "mine" when its truthy `cc_id` equals my branch or my cwd
directory name. -/
def is_mine_check (claim_info : Claim) (my_identity : Identity) : Bool :=
  claim_info.cc_id.getD "" != ""
    && (claim_info.cc_id.getD "" == my_identity.branch
        || claim_info.cc_id.getD "" == my_identity.cwd)

/-- The composite `branch and is_branch_merged(branch)` of lines 371-372:
false when the branch cannot be determined or is falsy. -/
def branch_merged_check (env : RemoveEnv) (worktree_path : String) : Bool :=
  match env.worktreeBranch worktree_path with
  | none => false
  | some b => b != "" && env.branchMerged b

/-- The session-marker and process checks of `should_block_removal`
(lines 385-396), reached when the claim checks did not return. -/
def removal_fallback (env : RemoveEnv) (worktree_path : String)
    (force : Bool) (claim_info : Option Claim) :
    Bool × String × Option RemovalInfo :=
  if (env.markerRecent worktree_path).1 && !force then
    (true, "session_marker",
     some (RemovalInfo.markerInfo (env.markerRecent worktree_path).2))
  else if !(env.processes worktree_path).isEmpty && !force then
    (true, "process",
     some (RemovalInfo.processInfo (env.processes worktree_path)))
  else (false, "", Option.map RemovalInfo.claimInfo claim_info)

/-- `should_block_removal` (scripts/safe_worktree_remove.py, lines
324-396).  `check_worktree_claimed` only ever returns claims with a
truthy `worktree_path`, so such a claim dict is nonempty and Python-truthy;
its presence is therefore modelled as `some`. -/
def should_block_removal (env : RemoveEnv) (worktree_path : String)
    (force : Bool) (my_identity : Identity) :
    Bool × String × Option RemovalInfo :=
  match (check_worktree_claimed env worktree_path).1,
      (check_worktree_claimed env worktree_path).2 with
  | true, some c =>
    if !force then
      if !is_mine_check c my_identity then
        if branch_merged_check env worktree_path then
          if (env.uncommitted worktree_path).1 then
            (true, "ownership", some (RemovalInfo.claimInfo c))
          else (false, "merged_safe", some (RemovalInfo.claimInfo c))
        else (true, "ownership", some (RemovalInfo.claimInfo c))
      else (true, "claim", some (RemovalInfo.claimInfo c))
    else
      removal_fallback env worktree_path force
        (check_worktree_claimed env worktree_path).2
  | _, _ =>
    removal_fallback env worktree_path force
      (check_worktree_claimed env worktree_path).2

/-- `release_claim` (scripts/safe_worktree_remove.py, lines 101-129),
invoked by `remove_worktree` on the `merged_safe` verdict: drop every
ledger claim with the given `cc_id` and, if any was dropped, append a
completion record with reason "auto_released_merged_pr" — with no
truncation of the history.  A missing or unparseable claims file is left
untouched (`none`). -/
def release_claim (ledger : Option Ledger) (cc_id : String)
    (nowStr : String) : Option Ledger :=
  match ledger with
  | none => none
  | some data =>
    if (data.claims.filter (fun c => c.cc_id != some cc_id)).length
        < data.claims.length then
      some ⟨data.claims.filter (fun c => c.cc_id != some cc_id),
            data.completed ++
              [⟨cc_id, none, none, some nowStr, none,
                some "auto_released_merged_pr", false⟩]⟩
    else some data

/-- A claim of another instance ("other") on worktree "wt", for the C3/C4
scenarios. -/
def otherClaim : Claim :=
  ⟨some "other", some 5, none, some "their task", none, some "sess-other",
   some "wt", none⟩

/-- The identity of the caller in the C3/C4 scenarios (branch and cwd both
differ from the claim owner). -/
def myIdentity : Identity := ⟨"mine", false, "mine-dir"⟩

/-- C3 witness environment: the worktree "wt" is claimed by "other", its
branch is not merged, a session marker is recent AND a live process has
its CWD inside the worktree. -/
def envOwnership : RemoveEnv :=
  ⟨some ⟨[otherClaim], []⟩, fun s => s, fun _ => some "wt-branch",
   fun _ => false, fun _ => (false, ""), fun _ => (true, some 100),
   fun _ => [⟨42, "bash", "wt/sub"⟩], "t2"⟩

/-- C4 environment: the worktree "wt" is claimed by "other", its branch is
merged upstream and it has no uncommitted changes. -/
def envMerged : RemoveEnv :=
  ⟨some ⟨[otherClaim], []⟩, fun s => s, fun _ => some "wt-branch",
   fun _ => true, fun _ => (false, ""), fun _ => (false, none),
   fun _ => [], "t2"⟩

/-- A completed history already holding 50 records, for the C8
counterexample. -/
def fullCompleted : List CompletionRecord :=
  List.replicate 50 ⟨"old", none, none, some "t0", none, none, false⟩

/-- A ledger with one claim and a full (50-entry) completed history. -/
def fullLedger : Ledger :=
  ⟨[⟨some "a", none, none, none, none, none, none, none⟩], fullCompleted⟩

end SafeRemove

namespace CheckClaims

/-- Claim C1: for every list of existing claims and every (possibly absent)
new plan, `check_scope_conflict` with new feature `"shared"` returns the
empty conflict list, regardless of any plan or feature overlap. -/
theorem check_scope_conflict_shared_empty (new_plan : Option Int)
    (existing : List Claim) :
    check_scope_conflict new_plan (some "shared") existing = [] := by
  simp [check_scope_conflict]

/-- Claim C2 counterexample: with the new plan set to `0` (which is set and
equal to the existing claim's plan) the code reports no conflict, because
Python truthiness treats the integer `0` as unset; so the claimed
equivalence fails at this concrete input. -/
theorem check_scope_conflict_zero_plan_cex :
    ¬ (zeroPlanClaim ∈ check_scope_conflict (some 0) none [zeroPlanClaim] ↔
        zeroPlanClaim ∈ [zeroPlanClaim] ∧
        ((some (0 : Int) ≠ none ∧ some (0 : Int) = zeroPlanClaim.plan) ∨
         ((none : Option String) ≠ none ∧
          (none : Option String) = zeroPlanClaim.feature ∧
          zeroPlanClaim.feature ≠ some "shared"))) := by
  decide

/-- Claim C2 (amended): for every new feature other than `"shared"`, an
existing claim appears in the result of `check_scope_conflict` exactly when
the new plan is set and truthy (nonzero) and equals that claim's plan, or
the new feature is set and truthy (nonempty), equals that claim's feature,
and that feature is not `"shared"`. -/
theorem check_scope_conflict_mem_iff (new_plan : Option Int)
    (new_feature : Option String) (existing : List Claim) (c : Claim)
    (hsh : new_feature ≠ some "shared") :
    c ∈ check_scope_conflict new_plan new_feature existing ↔
      c ∈ existing ∧
      ((truthyInt new_plan = true ∧ new_plan = c.plan) ∨
       (truthyStr new_feature = true ∧ new_feature = c.feature ∧
        c.feature ≠ some "shared")) := by
  rw [check_scope_conflict, if_neg hsh, List.mem_filter]
  simp only [Bool.or_eq_true, Bool.and_eq_true, beq_iff_eq, bne_iff_ne]
  constructor
  · rintro ⟨hm, ⟨⟨hp, _⟩, hpe⟩ | ⟨⟨⟨hf, _⟩, hfe⟩, hfs⟩⟩
    · exact ⟨hm, Or.inl ⟨hp, hpe⟩⟩
    · exact ⟨hm, Or.inr ⟨hf, hfe, hfs⟩⟩
  · rintro ⟨hm, ⟨hp, hpe⟩ | ⟨hf, hfe, hfs⟩⟩
    · exact ⟨hm, Or.inl ⟨⟨hp, hpe ▸ hp⟩, hpe⟩⟩
    · exact ⟨hm, Or.inr ⟨⟨⟨hf, hfe ▸ hf⟩, hfe⟩, hfs⟩⟩

/-- Witness for the amended C2 theorem at a concrete input: claiming
feature "f" conflicts with an existing claim on feature "f". -/
theorem check_scope_conflict_mem_iff_witness :
    featureFClaim ∈ check_scope_conflict none (some "f") [featureFClaim] ↔
      featureFClaim ∈ [featureFClaim] ∧
      ((truthyInt none = true ∧ (none : Option Int) = featureFClaim.plan) ∨
       (truthyStr (some "f") = true ∧ some "f" = featureFClaim.feature ∧
        featureFClaim.feature ≠ some "shared")) :=
  check_scope_conflict_mem_iff none (some "f") [featureFClaim] featureFClaim
    (by decide)

/-- Claim C6: `is_session_stale` returns `(stale = true, no session)` when no
loaded record matches the id; when it finds a record, that record matches
the id, and it is reported non-stale exactly when `last_activity` is
present, nonempty, well-formed, and `now - last_activity` does not exceed
the threshold (default 30 minutes, i.e. missing/malformed timestamps and
ages strictly over the threshold are stale). -/
theorem is_session_stale_spec (env : SessionEnv) (sid : String) (m : Int) :
    ((∀ s : Session, some s ∈ env.sessions → s.session_id ≠ some sid) →
      is_session_stale env sid m = (true, none)) ∧
    (∀ s : Session, (is_session_stale env sid m).2 = some s →
      s.session_id = some sid ∧
      ((is_session_stale env sid m).1 = false ↔
        ∃ la t, s.last_activity = some la ∧ la ≠ "" ∧
          env.parseIso la = some t ∧ env.now - t ≤ m * 60)) := by
  rw [is_session_stale]
  induction env.sessions with
  | nil =>
    refine ⟨fun _ => rfl, fun s hs => ?_⟩
    exact Option.noConfusion hs
  | cons os rest ih =>
    match os with
    | none => simpa [is_session_stale_scan] using ih
    | some s0 =>
      by_cases hid : s0.session_id = some sid
      · refine ⟨fun hall => absurd hid (hall s0 (by simp)), fun s hs => ?_⟩
        match hla : s0.last_activity with
        | none =>
          simp only [is_session_stale_scan, if_pos hid, hla] at hs ⊢
          cases hs
          refine ⟨hid, ?_⟩
          simp [hla]
        | some la =>
          by_cases hemp : la = ""
          · simp only [is_session_stale_scan, if_pos hid, hla,
              if_pos hemp] at hs ⊢
            cases hs
            refine ⟨hid, ?_⟩
            simp [hla, hemp]
          · match hparse : env.parseIso la with
            | none =>
              simp only [is_session_stale_scan, if_pos hid, hla, if_neg hemp,
                hparse] at hs ⊢
              cases hs
              refine ⟨hid, ?_⟩
              constructor
              · intro hd
                exact Bool.noConfusion hd
              · rintro ⟨la', t', h1, _, h3, _⟩
                rw [hla] at h1
                cases h1
                rw [hparse] at h3
                cases h3
            | some t =>
              simp only [is_session_stale_scan, if_pos hid, hla, if_neg hemp,
                hparse] at hs ⊢
              cases hs
              refine ⟨hid, ?_⟩
              constructor
              · intro hd
                refine ⟨la, t, hla, hemp, hparse, ?_⟩
                rw [decide_eq_false_iff_not] at hd
                omega
              · rintro ⟨la', t', h1, _, h3, h4⟩
                rw [hla] at h1
                cases h1
                rw [hparse] at h3
                cases h3
                rw [decide_eq_false_iff_not]
                omega
      · have step : is_session_stale_scan env.parseIso env.now m sid
            (some s0 :: rest) =
            is_session_stale_scan env.parseIso env.now m sid rest := by
          simp [is_session_stale_scan, hid]
        rw [step]
        refine ⟨fun hall => ih.1 (fun s hs => hall s (by simp [hs])), ih.2⟩

/-- Witness for C6 at a concrete input: the matching record is returned and
reported non-stale, because its 600-second age is within the 30-minute
threshold. -/
theorem is_session_stale_spec_witness :
    freshSession.session_id = some "sid-1" ∧
    ((is_session_stale sessionEnvWit "sid-1" STALENESS_MINUTES).1 = false ↔
      ∃ la t, freshSession.last_activity = some la ∧ la ≠ "" ∧
        sessionEnvWit.parseIso la = some t ∧ sessionEnvWit.now - t ≤
          STALENESS_MINUTES * 60) :=
  (is_session_stale_spec sessionEnvWit "sid-1" STALENESS_MINUTES).2
    freshSession rfl

/-- Claim C7: for a claim whose worktree path is set, exists, and has a
determinable most recent modification time `t`, `is_claim_stale` with the
default 8-hour threshold reports stale exactly when the inactivity,
`(now - t) / 3600` hours, strictly exceeds 8. -/
theorem is_claim_stale_iff (env : FsEnv) (c : Claim) (p : String) (t : Int)
    (hwp : c.worktree_path = some p) (hne : p ≠ "")
    (hex : env.pathExists p = true) (hlm : env.lastModified p = some t) :
    (is_claim_stale env c 8).1 = true ↔
      ((env.now - t : Int) : ℚ) / 3600 > 8 := by
  have htr : truthyStr c.worktree_path = true := by
    rw [hwp]
    simpa [truthyStr] using hne
  have hgd : c.worktree_path.getD "" = p := by rw [hwp]; rfl
  rw [is_claim_stale, htr, hgd, hex, hlm]
  simp only [Bool.not_true, Bool.false_eq_true, if_false]
  push_cast
  by_cases h : (8 : ℚ) < ((env.now : ℚ) - (t : ℚ)) / 3600
  · rw [if_pos h]
    exact iff_of_true rfl h
  · rw [if_neg h]
    exact iff_of_false (by simp) h

/-- Witness for C7 at concrete inputs: a worktree last modified 9 hours ago
is reported stale at the 8-hour threshold, and one last modified 7 hours
ago is not. -/
theorem is_claim_stale_iff_witness :
    (is_claim_stale fsNineHours wtClaim 8).1 = true ∧
    (is_claim_stale fsSevenHours wtClaim 8).1 = false := by
  constructor
  · exact (is_claim_stale_iff fsNineHours wtClaim "wt" 0 rfl (by decide) rfl
      rfl).mpr (by norm_num [fsNineHours])
  · have h := is_claim_stale_iff fsSevenHours wtClaim "wt" 0 rfl (by decide)
      rfl rfl
    have h2 : ¬ ((fsSevenHours.now - 0 : Int) : ℚ) / 3600 > 8 := by
      norm_num [fsSevenHours]
    cases hb : (is_claim_stale fsSevenHours wtClaim 8).1 with
    | false => rfl
    | true => exact absurd (h.mp hb) h2

/-- Claim C10: `cleanup_stale_claims` returns the same list of cc_ids
whether `dry_run` is true or false, performs no release and no mutation
(it is a pure function of its inputs returning only the report list), and
the returned cc_ids are exactly those of the input claims for which
`is_claim_stale` holds at the given threshold. -/
theorem cleanup_stale_claims_pure_report (env : FsEnv) (claims : List Claim)
    (max_hours : Int) (dr1 dr2 : Bool) :
    cleanup_stale_claims env claims max_hours dr1 =
      cleanup_stale_claims env claims max_hours dr2 ∧
    cleanup_stale_claims env claims max_hours dr1 =
      (claims.filter fun c => (is_claim_stale env c max_hours).1).map
        (fun c => c.cc_id.getD "unknown") := by
  refine ⟨rfl, ?_⟩
  rw [cleanup_stale_claims]
  induction claims with
  | nil => rfl
  | cons c rest ih =>
    by_cases h : (is_claim_stale env c max_hours).1 = true
    · simp [cleanup_stale_scan, h, ih]
    · simp only [Bool.not_eq_true] at h
      simp [cleanup_stale_scan, h, ih]

/-- Claim C9: orphan cleanup is idempotent — applying
`cleanup_orphaned_claims` to the remaining claims of a first application,
with the same worktree-existence observations, cleans zero claims and
returns the same remaining list. -/
theorem cleanup_orphaned_claims_idempotent (pathExists : String → Bool)
    (claims : List Claim) (dr1 dr2 : Bool) :
    cleanup_orphaned_claims pathExists
        (cleanup_orphaned_claims pathExists claims dr1).2 dr2 =
      ([], (cleanup_orphaned_claims pathExists claims dr1).2) := by
  simp only [cleanup_orphaned_claims]
  induction claims with
  | nil => rfl
  | cons c rest ih =>
    by_cases h : (!truthyStr c.worktree_path
        || !pathExists (c.worktree_path.getD "")) = true
    · have hstep : cleanup_orphaned_scan pathExists (c :: rest) =
          (c.cc_id.getD "unknown" :: (cleanup_orphaned_scan pathExists rest).1,
           (cleanup_orphaned_scan pathExists rest).2) := by
        simp only [cleanup_orphaned_scan, if_pos h]
      rw [hstep]
      exact ih
    · have hstep : cleanup_orphaned_scan pathExists (c :: rest) =
          ((cleanup_orphaned_scan pathExists rest).1,
           c :: (cleanup_orphaned_scan pathExists rest).2) := by
        simp only [cleanup_orphaned_scan, if_neg h]
      rw [hstep]
      have hstep2 : cleanup_orphaned_scan pathExists
          (c :: (cleanup_orphaned_scan pathExists rest).2) =
          ((cleanup_orphaned_scan pathExists
             (cleanup_orphaned_scan pathExists rest).2).1,
           c :: (cleanup_orphaned_scan pathExists
             (cleanup_orphaned_scan pathExists rest).2).2) := by
        simp only [cleanup_orphaned_scan, if_neg h]
      rw [hstep2, ih]

/-- Claim C5 counterexample: even with `force = true`, `add_claim` for a
`cc_id` that already holds a claim fails and leaves the ledger unchanged —
the duplicate-`cc_id` guard is not bypassed by `force`, contradicting the
claim that a forced call proceeds. -/
theorem add_claim_force_duplicate_cex :
    add_claim claimEnvCex dupLedger "agent-a" none none "task" [] none true
      none = (false, dupLedger) := rfl

/-- Claim C5 (amended): `add_claim` fails — returning failure and leaving
the claim set unchanged — whenever a claim with the same `cc_id` already
exists in the store, regardless of the `force` flag (`force` bypasses only
the dependency and scope-conflict checks). -/
theorem add_claim_duplicate_fails (env : ClaimEnv) (data : Ledger)
    (cc_id : String) (plan : Option Int) (feature : Option String)
    (task : String) (files : List String) (worktree_path : Option String)
    (force : Bool) (session_id : Option String)
    (hdup : data.claims.any (fun c => c.cc_id == some cc_id) = true) :
    add_claim env data cc_id plan feature task files worktree_path force
      session_id = (false, data) := by
  rw [add_claim]
  by_cases hm : cc_id = "main"
  · rw [if_pos hm]
  · rw [if_neg hm, if_pos hdup]

/-- Witness for the amended C5 theorem at a concrete input: the duplicate
claim of "agent-a" blocks a new unforced claim, leaving the ledger as is. -/
theorem add_claim_duplicate_fails_witness :
    add_claim claimEnvCex dupLedger "agent-a" none none "task" [] none false
      none = (false, dupLedger) :=
  add_claim_duplicate_fails claimEnvCex dupLedger "agent-a" none none "task"
    [] none false none (by decide)

end CheckClaims

/-- Helper: the last `n` elements of a list are at most `n` elements. -/
theorem lastN_length_le {α : Type} (n : Nat) (l : List α) :
    (CheckClaims.lastN n l).length ≤ n := by
  simp only [CheckClaims.lastN, List.length_drop]
  omega

/-- Helper: filtering out a present element strictly shrinks a list. -/
theorem length_filter_lt_of_mem {α : Type} (p : α → Bool) (l : List α)
    (a : α) (ha : a ∈ l) (hpa : p a = false) :
    (l.filter p).length < l.length := by
  induction l with
  | nil => cases ha
  | cons x xs ih =>
    rw [List.filter_cons]
    rcases List.mem_cons.mp ha with rfl | hmem
    · simp only [hpa, Bool.false_eq_true, if_false, List.length_cons]
      have hle := List.length_filter_le p xs
      omega
    · by_cases hx : p x = true
      · simp only [hx, if_true, List.length_cons]
        exact Nat.succ_lt_succ (ih hmem)
      · simp only [Bool.not_eq_true] at hx
        simp only [hx, Bool.false_eq_true, if_false]
        exact Nat.lt_succ_of_lt (ih hmem)

namespace SafeRemove

open CheckClaims

/-- Helper: a claim returned by the `check_worktree_claimed` scan is one of
the scanned claims. -/
theorem check_worktree_claimed_scan_mem (resolve : String → String)
    (normalized : String) (claims : List Claim) (c : Claim)
    (h : check_worktree_claimed_scan resolve normalized claims =
      (true, some c)) :
    c ∈ claims := by
  induction claims with
  | nil => exact Option.noConfusion (congrArg Prod.snd h)
  | cons x rest ih =>
    rcases hwp : x.worktree_path with _ | wp
    · have hstep : check_worktree_claimed_scan resolve normalized (x :: rest)
          = check_worktree_claimed_scan resolve normalized rest := by
        simp only [check_worktree_claimed_scan, hwp]
      rw [hstep] at h
      exact List.mem_cons_of_mem x (ih h)
    · by_cases hemp : wp = ""
      · have hstep : check_worktree_claimed_scan resolve normalized (x :: rest)
            = check_worktree_claimed_scan resolve normalized rest := by
          simp only [check_worktree_claimed_scan, hwp, if_pos hemp]
        rw [hstep] at h
        exact List.mem_cons_of_mem x (ih h)
      · by_cases hres : resolve wp = normalized
        · have hstep : check_worktree_claimed_scan resolve normalized
              (x :: rest) = (true, some x) := by
            simp only [check_worktree_claimed_scan, hwp, if_neg hemp,
              if_pos hres]
          rw [hstep] at h
          simp only [Prod.mk.injEq, Option.some.injEq, true_and] at h
          subst h
          exact List.mem_cons_self x rest
        · have hstep : check_worktree_claimed_scan resolve normalized
              (x :: rest) = check_worktree_claimed_scan resolve normalized
                rest := by
            simp only [check_worktree_claimed_scan, hwp, if_neg hemp,
              if_neg hres]
          rw [hstep] at h
          exact List.mem_cons_of_mem x (ih h)

/-- Helper: a claim found by `check_worktree_claimed` lives in the parsed
ledger's claims list. -/
theorem check_worktree_claimed_mem (env : RemoveEnv) (wt : String)
    (c : Claim) (d : Ledger) (hl : env.ledger = some d)
    (h : check_worktree_claimed env wt = (true, some c)) :
    c ∈ d.claims := by
  rw [check_worktree_claimed, hl] at h
  exact check_worktree_claimed_scan_mem env.resolve (env.resolve wt)
    d.claims c h

/-- Claim C3: when a claim on the worktree is owned by a different identity
and the branch is not (determinably) merged or the worktree has
uncommitted changes, `should_block_removal` without force blocks with
reason "ownership" — for every marker and process observation, since the
ownership check returns before the session-marker and process checks. -/
theorem should_block_removal_ownership_first (env : RemoveEnv) (wt : String)
    (idy : Identity) (c : Claim)
    (hfound : check_worktree_claimed env wt = (true, some c))
    (hmine : is_mine_check c idy = false)
    (hsafe : branch_merged_check env wt = false ∨
      (env.uncommitted wt).1 = true) :
    should_block_removal env wt false idy =
      (true, "ownership", some (RemovalInfo.claimInfo c)) := by
  have h1 : (check_worktree_claimed env wt).1 = true := by rw [hfound]
  have h2 : (check_worktree_claimed env wt).2 = some c := by rw [hfound]
  rw [should_block_removal]
  simp only [h1, h2, hmine, Bool.not_false, Bool.not_true, if_true]
  rcases hsafe with hbm | hun
  · simp [hbm]
  · by_cases hbm : branch_merged_check env wt = true
    · simp [hbm, hun]
    · simp only [Bool.not_eq_true] at hbm
      simp [hbm]

/-- Witness for C3 at a concrete input: the worktree claimed by "other"
with an unmerged branch is blocked with reason "ownership" even though a
live process sits inside the worktree and the session marker is recent. -/
theorem should_block_removal_ownership_first_witness :
    should_block_removal envOwnership "wt" false myIdentity =
      (true, "ownership", some (RemovalInfo.claimInfo otherClaim)) ∧
    (envOwnership.processes "wt" ≠ [] ∧
      (envOwnership.markerRecent "wt").1 = true) :=
  ⟨should_block_removal_ownership_first envOwnership "wt" myIdentity
      otherClaim rfl rfl (Or.inl rfl),
   by decide⟩

/-- Claim C4 counterexample: in the concrete merged-and-clean scenario the
verdict is the auto-release one, but the completion record appended by the
auto-release (`release_claim` of safe_worktree_remove.py, line 126) has
reason "auto_released_merged_pr", not "branch_merged" as claimed. -/
theorem merged_autorelease_reason_cex :
    should_block_removal envMerged "wt" false myIdentity =
      (false, "merged_safe", some (RemovalInfo.claimInfo otherClaim)) ∧
    release_claim envMerged.ledger "other" envMerged.nowStr =
      some ⟨[], [⟨"other", none, none, some "t2", none,
        some "auto_released_merged_pr", false⟩]⟩ ∧
    (some "auto_released_merged_pr" : Option String) ≠ some "branch_merged" :=
  ⟨rfl, rfl, by decide⟩

/-- Claim C4 (amended): with a claim owned by a different identity, the
branch merged upstream and no uncommitted changes, the verdict without
force is the allow-with-auto-release one ("merged_safe"), and the released
claim is appended to the completed history as a CompletionRecord whose
reason field is "auto_released_merged_pr" (with the claim dropped from the
ledger's claims). -/
theorem should_block_removal_merged_autorelease (env : RemoveEnv)
    (wt : String) (idy : Identity) (c : Claim) (d : Ledger) (ccid : String)
    (hledger : env.ledger = some d)
    (hfound : check_worktree_claimed env wt = (true, some c))
    (hmine : is_mine_check c idy = false)
    (hmerged : branch_merged_check env wt = true)
    (hclean : (env.uncommitted wt).1 = false)
    (hcc : c.cc_id = some ccid) :
    should_block_removal env wt false idy =
      (false, "merged_safe", some (RemovalInfo.claimInfo c)) ∧
    release_claim env.ledger ccid env.nowStr =
      some ⟨d.claims.filter (fun x => x.cc_id != some ccid),
            d.completed ++
              [⟨ccid, none, none, some env.nowStr, none,
                some "auto_released_merged_pr", false⟩]⟩ := by
  constructor
  · have h1 : (check_worktree_claimed env wt).1 = true := by rw [hfound]
    have h2 : (check_worktree_claimed env wt).2 = some c := by rw [hfound]
    rw [should_block_removal]
    simp only [h1, h2, hmine, Bool.not_false, Bool.not_true, if_true]
    simp [hmerged, hclean]
  · rw [hledger]
    have hmem : c ∈ d.claims :=
      check_worktree_claimed_mem env wt c d hledger hfound
    have hlt : (d.claims.filter (fun x => x.cc_id != some ccid)).length
        < d.claims.length := by
      apply length_filter_lt_of_mem _ _ c hmem
      simp [hcc]
    simp only [release_claim]
    rw [if_pos hlt]

/-- Witness for the amended C4 theorem at a concrete input: the claim of
"other" on the merged, clean worktree "wt" yields the "merged_safe"
verdict and moves to history with reason "auto_released_merged_pr". -/
theorem should_block_removal_merged_autorelease_witness :
    should_block_removal envMerged "wt" false myIdentity =
      (false, "merged_safe", some (RemovalInfo.claimInfo otherClaim)) ∧
    release_claim envMerged.ledger "other" envMerged.nowStr =
      some ⟨(Ledger.mk [otherClaim] []).claims.filter
              (fun x => x.cc_id != some "other"),
            (Ledger.mk [otherClaim] []).completed ++
              [⟨"other", none, none, some envMerged.nowStr, none,
                some "auto_released_merged_pr", false⟩]⟩ :=
  should_block_removal_merged_autorelease envMerged "wt" myIdentity
    otherClaim (Ledger.mk [otherClaim] []) "other" rfl rfl rfl rfl rfl rfl

/-- Claim C8 counterexample: the auto-release performed by
safe_worktree_remove.py when a merged worktree is removed destroys a claim
and appends a CompletionRecord but never truncates the history: starting
from a 50-entry history it leaves 51 entries, above both bounds, so the
bound does not hold after every claim-destroying operation. -/
theorem release_claim_unbounded_history_cex :
    release_claim (some fullLedger) "a" "t1" =
      some ⟨[], fullCompleted ++
        [⟨"a", none, none, some "t1", none,
          some "auto_released_merged_pr", false⟩]⟩ ∧
    (fullCompleted ++
      [(⟨"a", none, none, some "t1", none,
        some "auto_released_merged_pr", false⟩ : CompletionRecord)]).length
      = 51 ∧
    ¬ (51 ≤ 50) ∧ ¬ (51 ≤ 20) :=
  ⟨rfl, by decide, by decide, by decide⟩

end SafeRemove

namespace CheckClaims

/-- Claim C8 (amended): each of the four claim-destroying ledger operations
of check_claims.py appends CompletionRecords and leaves the completed
history bounded: 20 entries on explicit release; 50 on the merged-branch,
orphan and stale cleanup paths — regardless of the prior history length.
The auto-release path of safe_worktree_remove.py, by contrast, appends its
CompletionRecord without truncating the history. -/
theorem completed_history_bounded :
    (∀ (env : ReleaseEnv) (data : Ledger) (cc_id : String)
        (commit : Option String) (validate force : Bool)
        (session_id : Option String),
      (release_claim env data cc_id commit validate force session_id).1 =
          true →
        ∃ r : CompletionRecord,
          (release_claim env data cc_id commit validate force
              session_id).2.completed = lastN 20 (data.completed ++ [r]) ∧
          (release_claim env data cc_id commit validate force
              session_id).2.completed.length ≤ 20) ∧
    (∀ (merged : List String) (nowStr : String) (data : Ledger),
      0 < (cleanup_merged_claims merged nowStr data).1 →
        ∃ recs : List CompletionRecord, recs ≠ [] ∧
          (cleanup_merged_claims merged nowStr data).2.2.completed =
            lastN 50 (data.completed ++ recs) ∧
          (cleanup_merged_claims merged nowStr data).2.2.completed.length
            ≤ 50) ∧
    (∀ (pathExists : String → Bool) (nowStr : String) (data : Ledger),
      (cleanup_orphaned_claims pathExists data.claims false).1 ≠ [] →
        ∃ recs : List CompletionRecord, recs ≠ [] ∧
          (cleanup_orphaned_apply pathExists nowStr data false).completed =
            lastN 50 (data.completed ++ recs) ∧
          (cleanup_orphaned_apply pathExists nowStr data
              false).completed.length ≤ 50) ∧
    (∀ (env : FsEnv) (nowStr : String) (data : Ledger) (stale_hours : Int),
      cleanup_stale_claims env data.claims stale_hours true ≠ [] →
        ∃ recs : List CompletionRecord, recs ≠ [] ∧
          (cleanup_stale_apply env nowStr data stale_hours false).completed =
            lastN 50 (data.completed ++ recs) ∧
          (cleanup_stale_apply env nowStr data stale_hours
              false).completed.length ≤ 50) ∧
    (∀ (d : Ledger) (ccid nowStr : String) (c : Claim),
      c ∈ d.claims → c.cc_id = some ccid →
        SafeRemove.release_claim (some d) ccid nowStr =
          some ⟨d.claims.filter (fun x => x.cc_id != some ccid),
                d.completed ++
                  [⟨ccid, none, none, some nowStr, none,
                    some "auto_released_merged_pr", false⟩]⟩) := by
  refine ⟨?_, ?_, ?_, ?_, ?_⟩
  · intro env data cc_id commit validate force session_id hsucc
    rcases hfind : data.claims.find? (fun c => c.cc_id == some cc_id)
      with _ | c
    · rw [release_claim, hfind] at hsucc
      exact absurd hsucc (by simp)
    · rw [release_claim, hfind] at hsucc ⊢
      dsimp only at hsucc ⊢
      by_cases h1 : release_ownership_ok env c force session_id = true
      · simp only [h1, Bool.not_true, Bool.false_eq_true,
          if_false] at hsucc ⊢
        by_cases h2 : release_validation_ok env c validate force = true
        · simp only [h2, Bool.not_true, Bool.false_eq_true,
            if_false] at hsucc ⊢
          exact ⟨release_completion env c cc_id commit, rfl,
            lastN_length_le 20 _⟩
        · simp only [Bool.not_eq_true] at h2
          simp only [h2, Bool.not_false, if_true] at hsucc
          exact absurd hsucc (by simp)
      · simp only [Bool.not_eq_true] at h1
        simp only [h1, Bool.not_false, if_true] at hsucc
        exact absurd hsucc (by simp)
  · intro merged nowStr data hpos
    rw [cleanup_merged_claims] at hpos ⊢
    by_cases hemp : merged.isEmpty = true
    · rw [if_pos hemp] at hpos
      exact absurd hpos (by simp)
    · rw [if_neg hemp] at hpos ⊢
      by_cases hlen : 0 < (merged_cleaned merged data).length
      · rw [if_pos hlen]
        refine ⟨merged_completions merged nowStr data, ?_, rfl,
          lastN_length_le 50 _⟩
        cases hc : merged_cleaned merged data with
        | nil => rw [hc] at hlen; exact absurd hlen (by simp)
        | cons a l =>
          rw [merged_completions, hc]
          simp
      · rw [if_neg hlen] at hpos
        exact absurd hpos (by simp)
  · intro pathExists nowStr data hne
    have hcond : (!(cleanup_orphaned_claims pathExists data.claims
        false).1.isEmpty && !false) = true := by
      cases hl : (cleanup_orphaned_claims pathExists data.claims false).1 with
      | nil => exact absurd hl hne
      | cons a l => rfl
    rw [cleanup_orphaned_apply, if_pos hcond]
    refine ⟨_, ?_, rfl, lastN_length_le 50 _⟩
    cases hl : (cleanup_orphaned_claims pathExists data.claims false).1 with
    | nil => exact absurd hl hne
    | cons a l => simp
  · intro env nowStr data stale_hours hne
    have hcond : (!(cleanup_stale_claims env data.claims stale_hours
        true).isEmpty && !false) = true := by
      cases hl : cleanup_stale_claims env data.claims stale_hours true with
      | nil => exact absurd hl hne
      | cons a l => rfl
    rw [cleanup_stale_apply, if_pos hcond]
    refine ⟨stale_completions env nowStr data stale_hours, ?_, rfl,
      lastN_length_le 50 _⟩
    rw [stale_completions]
    cases hl : cleanup_stale_claims env data.claims stale_hours true with
    | nil => exact absurd hl hne
    | cons a l => simp
  · intro d ccid nowStr c hmem hcc
    have hlt : (d.claims.filter (fun x => x.cc_id != some ccid)).length
        < d.claims.length := by
      apply length_filter_lt_of_mem _ _ c hmem
      simp [hcc]
    simp only [SafeRemove.release_claim]
    rw [if_pos hlt]

/-- Witness for the amended C8 theorem at concrete inputs: one scenario per
destruction path (explicit release, merged cleanup, orphan cleanup, stale
cleanup, and the safe-remove auto-release), each applied to a one-claim
ledger. -/
theorem completed_history_bounded_witness :
    (∃ r : CompletionRecord,
      (release_claim releaseEnvWit oneClaimLedger "a" none false false
          none).2.completed = lastN 20 (oneClaimLedger.completed ++ [r]) ∧
      (release_claim releaseEnvWit oneClaimLedger "a" none false false
          none).2.completed.length ≤ 20) ∧
    (∃ recs : List CompletionRecord, recs ≠ [] ∧
      (cleanup_merged_claims ["a"] "t1" oneClaimLedger).2.2.completed =
        lastN 50 (oneClaimLedger.completed ++ recs) ∧
      (cleanup_merged_claims ["a"] "t1" oneClaimLedger).2.2.completed.length
        ≤ 50) ∧
    (∃ recs : List CompletionRecord, recs ≠ [] ∧
      (cleanup_orphaned_apply noPathExists "t1" oneClaimLedger
          false).completed = lastN 50 (oneClaimLedger.completed ++ recs) ∧
      (cleanup_orphaned_apply noPathExists "t1" oneClaimLedger
          false).completed.length ≤ 50) ∧
    (∃ recs : List CompletionRecord, recs ≠ [] ∧
      (cleanup_stale_apply fsNothing "t1" oneClaimLedger 8 false).completed =
        lastN 50 (oneClaimLedger.completed ++ recs) ∧
      (cleanup_stale_apply fsNothing "t1" oneClaimLedger 8
          false).completed.length ≤ 50) ∧
    SafeRemove.release_claim (some oneClaimLedger) "a" "t1" =
      some ⟨oneClaimLedger.claims.filter (fun x => x.cc_id != some "a"),
            oneClaimLedger.completed ++
              [⟨"a", none, none, some "t1", none,
                some "auto_released_merged_pr", false⟩]⟩ :=
  ⟨completed_history_bounded.1 releaseEnvWit oneClaimLedger "a" none false
      false none rfl,
   completed_history_bounded.2.1 ["a"] "t1" oneClaimLedger (by decide),
   completed_history_bounded.2.2.1 noPathExists "t1" oneClaimLedger
     (by decide),
   completed_history_bounded.2.2.2.1 fsNothing "t1" oneClaimLedger 8
     (by decide),
   completed_history_bounded.2.2.2.2 oneClaimLedger "a" "t1"
     ⟨some "a", none, none, none, none, none, none, none⟩ (by decide) rfl⟩

end CheckClaims
